import Mathlib

/-!
A shallow embedding of the PulseGo measurement-and-scoring engine.

Each definition transcribes one function of the Go sources:
- `internal/metrics/bufferbloat.go` (bufferbloat severity, health scoring),
- `internal/metrics/jitter.go` (jitter sampling loop and statistics),
- `internal/engine/engine.go` (the three throughput modes),
- `internal/watchdog/watchdog.go` (watchdog ticks, statistics, alert log).

Modelling conventions: durations are integers counting nanoseconds (Go
`time.Duration` is an int64 nanosecond count); `float64` quantities are
rationals, except the final jitter value which involves a square root and is
modelled as a real number (all concrete values involved are far inside the
range where float64 arithmetic is exact, so exact arithmetic is faithful);
network I/O is abstracted by oracle parameters: a probe either fails
(`none`) or returns a measured value (`some v`).
-/

namespace PulseGo

/-! ### Health scorer — `internal/metrics/bufferbloat.go`, `CalculateHealthScore` -/

structure HealthScore where
  grade : String
  score : ℕ
  downloadMbps : ℚ
  jitter : ℤ
  latency : ℤ
  bufferbloat : String
  details : List String
deriving DecidableEq

/-- Points contributed by the `downloadMbps` if-chain of `CalculateHealthScore`
(lines 92-98): `>= 100 → 30`, `>= 50 → 20`, `>= 25 → 10`, else 0. -/
def throughputPoints (downloadMbps : ℚ) : ℕ :=
  if 100 ≤ downloadMbps then 30
  else if 50 ≤ downloadMbps then 20
  else if 25 ≤ downloadMbps then 10
  else 0

/-- Points contributed by the latency if-chain (lines 100-111); thresholds are
50ms, 100ms, 200ms in nanoseconds. -/
def latencyPoints (latency : ℤ) : ℕ :=
  if latency < 50000000 then 25
  else if latency < 100000000 then 15
  else if latency < 200000000 then 5
  else 0

/-- Detail string appended by the latency if-chain (lines 100-111). -/
def latencyDetail (latency : ℤ) : String :=
  if latency < 50000000 then "Excellent latency"
  else if latency < 100000000 then "Good latency"
  else if latency < 200000000 then "Moderate latency"
  else "High latency"

/-- Points contributed by the jitter if-chain (lines 113-124); thresholds are
5ms, 15ms, 30ms in nanoseconds. -/
def jitterPoints (jitter : ℤ) : ℕ :=
  if jitter < 5000000 then 25
  else if jitter < 15000000 then 15
  else if jitter < 30000000 then 5
  else 0

/-- Detail string appended by the jitter if-chain (lines 113-124). -/
def jitterDetail (jitter : ℤ) : String :=
  if jitter < 5000000 then "Excellent jitter"
  else if jitter < 15000000 then "Acceptable jitter"
  else if jitter < 30000000 then "High jitter"
  else "Very high jitter"

/-- Points contributed by the bufferbloat `switch` (lines 126-136): `Low → 20`,
`Medium → 10`, `High → 0`, and every other string (including `Unknown`) falls
through the switch contributing 0. -/
def bufferbloatPoints (bufferbloat : String) : ℕ :=
  if bufferbloat = "Low" then 20
  else if bufferbloat = "Medium" then 10
  else 0

/-- Detail strings appended by the bufferbloat `switch` (lines 126-136); the
default case appends nothing. -/
def bloatDetail (bufferbloat : String) : List String :=
  if bufferbloat = "Low" then ["Low bufferbloat"]
  else if bufferbloat = "Medium" then ["Moderate bufferbloat"]
  else if bufferbloat = "High" then ["High bufferbloat"]
  else []

/-- The grade if-chain of `CalculateHealthScore` (lines 138-147). -/
def gradeOf (score : ℕ) : String :=
  if 90 ≤ score then "A"
  else if 75 ≤ score then "B"
  else if 60 ≤ score then "C"
  else if 40 ≤ score then "D"
  else "F"

/-- `CalculateHealthScore` (bufferbloat.go lines 88-158): the four component
contributions accumulate into `score` and the grade is derived from the total.
Go's `score` is an `int` that is only ever incremented by nonnegative
constants, so ℕ is faithful. -/
def CalculateHealthScore (downloadMbps : ℚ) (jitter latency : ℤ)
    (bufferbloat : String) : HealthScore :=
  let score := throughputPoints downloadMbps + latencyPoints latency
    + jitterPoints jitter + bufferbloatPoints bufferbloat
  { grade := gradeOf score
    score := score
    downloadMbps := downloadMbps
    jitter := jitter
    latency := latency
    bufferbloat := bufferbloat
    details := [latencyDetail latency, jitterDetail jitter] ++ bloatDetail bufferbloat }

/-! ### Bufferbloat severity — `internal/metrics/bufferbloat.go`, `MeasureBufferbloat` -/

structure BufferbloatResult where
  latencyUnderLoad : ℤ
  latencyIdle : ℤ
  bloatDelta : ℤ
  severity : String
deriving DecidableEq

/-- The severity classification of `MeasureBufferbloat` (lines 41-48):
start at `Low`, overwrite with `Medium` when `delta > 100ms`, overwrite with
`High` when `delta > 300ms`. -/
def severityOfDelta (delta : ℤ) : String :=
  let s1 := "Low"
  let s2 := if 100000000 < delta then "Medium" else s1
  if 300000000 < delta then "High" else s2

/-- `MeasureBufferbloat` (lines 17-56) after abstracting the two latency
probes: given the idle-probe and loaded-probe results, the returned record.
The burst of 10 load-inducing requests has no effect on the returned data. -/
def MeasureBufferbloat (idleLatency underLoadLatency : ℤ) : BufferbloatResult :=
  let delta := underLoadLatency - idleLatency
  { latencyUnderLoad := underLoadLatency
    latencyIdle := idleLatency
    bloatDelta := delta
    severity := severityOfDelta delta }

/-- Modelled from the spec: the severity boundaries as the spec words them,
`delta ≤ 100ms → Low; 100ms < delta ≤ 300ms → Medium; delta > 300ms → High`
(compared against `severityOfDelta`, which is transcribed from the code). -/
def severitySpec (delta : ℤ) : String :=
  if delta ≤ 100000000 then "Low"
  else if delta ≤ 300000000 then "Medium"
  else "High"

/-! ### Jitter sampler — `internal/metrics/jitter.go`, `MeasureJitter`

The sampling loop (lines 24-46) is modelled with two oracles: `probe i` is
the outcome of `client.Do` at iteration `i` when the context is still live
(`none` = request error, `some l` = measured latency), and `doneFrom` is the
first iteration at which the context is already cancelled when the probe
starts (`doneFrom ≥ samples` means the context never fires during the run);
`client.Do` against a cancelled context fails immediately, so probes from
iteration `doneFrom` on yield no latency. In the Go source the
`case <-ctx.Done(): break` inside the `select` (lines 40-44) terminates only
the `select` statement, not the `for` loop, so cancellation does not change
which iterations run: every one of the `samples` iterations issues a
request. -/

/-- One pass of the sampling loop: `i` is the current loop index, the second
argument is the number of iterations remaining; returns (number of probe
attempts issued, successful latencies in temporal order). -/
def jitterLoopAux (doneFrom : ℕ) (probe : ℕ → Option ℤ) : ℕ → ℕ → ℕ × List ℤ
  | _, 0 => (0, [])
  | i, rem + 1 =>
    let outcome := if doneFrom ≤ i then none else probe i
    let rest := jitterLoopAux doneFrom probe (i + 1) rem
    (rest.1 + 1, match outcome with
      | some l => l :: rest.2
      | none => rest.2)

/-- The sampling loop of `MeasureJitter` (lines 24-46), started at `i = 0`. -/
def jitterLoop (samples doneFrom : ℕ) (probe : ℕ → Option ℤ) : ℕ × List ℤ :=
  jitterLoopAux doneFrom probe 0 samples

/-- Insertion of one element into an ascending list. -/
def insertSorted (x : ℤ) : List ℤ → List ℤ
  | [] => [x]
  | y :: ys => if x ≤ y then x :: y :: ys else y :: insertSorted x ys

/-- The `sort.Slice(latencies, ...)` call (lines 56-58): ascending sort. -/
def sortLatencies : List ℤ → List ℤ
  | [] => []
  | x :: xs => insertSorted x (sortLatencies xs)

/-- The summation loop of lines 60-63. -/
def durSum : List ℤ → ℤ
  | [] => 0
  | l :: ls => l + durSum ls

/-- The `varianceSum` loop (lines 66-70): sum of squared differences of
adjacent elements, walking the list front to back. The Go loop squares in
float64; every value here is an integer far below 2^53, where float64
arithmetic is exact, so the integer sum is faithful. -/
def consecSqSum : List ℤ → ℤ
  | [] => 0
  | [_] => 0
  | a :: b :: rest => (b - a) ^ 2 + consecSqSum (b :: rest)

structure JitterResult where
  jitterSq : ℚ
  minLatency : ℤ
  maxLatency : ℤ
  avgLatency : ℤ
  packetLoss : ℚ
  samples : ℕ
deriving DecidableEq

/-- `MeasureJitter` (lines 20-81) after the loop: with fewer than 2 successes
return jitter 0 and the loss (lines 48-54); otherwise sort, take min/max/avg
from the sorted slice, and set jitter to the square root of the mean squared
adjacent difference of the *sorted* latencies (lines 56-80). To keep the
model executable, `jitterSq` holds the argument of `math.Sqrt` — the mean
squared adjacent difference — and the jitter value itself is
`Real.sqrt jitterSq`, applied in the statements; this determines the jitter
value exactly, since `Real.sqrt` is injective on nonnegative inputs (in the
`n < 2` branch the source sets jitter to 0 directly, which is `Real.sqrt 0`).
The Go code truncates the square root into a `time.Duration`; the model
keeps the exact real value. `Int.tdiv` is Go's int64 division (truncation
toward zero). -/
def MeasureJitter (samples doneFrom : ℕ) (probe : ℕ → Option ℤ) : JitterResult :=
  let latencies := (jitterLoop samples doneFrom probe).2
  let n := latencies.length
  let loss : ℚ := ((samples - n : ℕ) : ℚ) / (samples : ℚ) * 100
  if n < 2 then
    { jitterSq := 0, minLatency := 0, maxLatency := 0, avgLatency := 0
      packetLoss := loss, samples := n }
  else
    let sorted := sortLatencies latencies
    { jitterSq := (consecSqSum sorted : ℚ) / ((n - 1 : ℕ) : ℚ)
      minLatency := sorted.headD 0
      maxLatency := sorted.getLastD 0
      avgLatency := Int.tdiv (durSum sorted) (n : ℤ)
      packetLoss := loss
      samples := n }

/-- Modelled from the spec: `sqrt(mean of squared differences between
adjacent samples ...)` written directly as a fold over adjacent pairs; used
to compare the code's accumulation loop with the spec's formula. -/
def sumSqAdj (l : List ℤ) : ℤ :=
  ((l.zip l.tail).map (fun p => (p.2 - p.1) ^ 2)).sum

/-! ### Throughput engine — `internal/engine/engine.go`

A worker's (or, in stress mode, a loop iteration's) download is abstracted
as an `Option ℕ`: `none` for a failed request (the error counter is
incremented) and `some b` for a completed download of `b` bytes. -/

inductive EngineError where
  | noData
  | noTargets
deriving DecidableEq

structure EngineResult where
  downloadSpeed : ℚ
  bytesReceived : ℕ
  durationNs : ℕ
  connections : ℕ
  avgSpeed : ℚ
  peakSpeed : ℚ
  errors : ℕ
deriving DecidableEq

/-- Total bytes accumulated into `totalBytes` by the workers. -/
def bytesOf (outcomes : List (Option ℕ)) : ℕ :=
  (outcomes.filterMap id).sum

/-- Value of the `errors` counter after the workers report. -/
def errorsOf (outcomes : List (Option ℕ)) : ℕ :=
  outcomes.countP Option.isNone

/-- The speed computation shared by all modes (engine.go lines 102-103,
187-188, 274-275): `mbps = (bytes*8 / 1e6) / duration.Seconds()`, with
`Duration.Seconds()` being the nanosecond count divided by 1e9. -/
def mbpsOf (bytes durNs : ℕ) : ℚ :=
  ((bytes * 8 : ℕ) : ℚ) / 1000000 / ((durNs : ℚ) / 1000000000)

/-- `runStandard` (engine.go lines 43-113): one download per worker, barrier
wait, then the zero-byte check (lines 98-100) before the result is built;
`cfg.Downloads` workers run, one outcome each. `AvgSpeed` is never assigned
and stays at its zero value. -/
def runStandard (outcomes : List (Option ℕ)) (durNs : ℕ) :
    Except EngineError EngineResult :=
  let totalBytes := bytesOf outcomes
  if totalBytes = 0 then .error .noData
  else
    .ok { downloadSpeed := mbpsOf totalBytes durNs
          bytesReceived := totalBytes
          durationNs := durNs
          connections := outcomes.length
          avgSpeed := 0
          peakSpeed := mbpsOf totalBytes durNs
          errors := errorsOf outcomes }

/-- `runStress` (engine.go lines 115-204): the worker-count floor of 10
(lines 116-119), download outcomes accumulated across every loop iteration
of every worker, then the zero-byte check (lines 192-194). -/
def runStress (requested : ℕ) (outcomes : List (Option ℕ)) (durNs : ℕ) :
    Except EngineError EngineResult :=
  let connections := if requested < 10 then 10 else requested
  let totalBytes := bytesOf outcomes
  if totalBytes = 0 then .error .noData
  else
    .ok { downloadSpeed := mbpsOf totalBytes durNs
          bytesReceived := totalBytes
          durationNs := durNs
          connections := connections
          avgSpeed := 0
          peakSpeed := mbpsOf totalBytes durNs
          errors := errorsOf outcomes }

/-- `RunP2P` (engine.go lines 206-284): empty target list rejected up front
(lines 207-209); one worker per target, completion racing the deadline, so
`outcomes` holds the outcomes of the workers that finished before
aggregation; elapsed time floors at one nanosecond (lines 270-272); the
result is returned with no check of `totalBytes`, and `PeakSpeed`/`AvgSpeed`
are never assigned. -/
def RunP2P (targets : List String) (outcomes : List (Option ℕ)) (elapsedNs : ℕ) :
    Except EngineError EngineResult :=
  if targets.length = 0 then .error .noTargets
  else
    let elapsed := if elapsedNs = 0 then 1 else elapsedNs
    let totalBytes := bytesOf outcomes
    .ok { downloadSpeed := mbpsOf totalBytes elapsed
          bytesReceived := totalBytes
          durationNs := elapsed
          connections := targets.length
          avgSpeed := 0
          peakSpeed := 0
          errors := errorsOf outcomes }

/-! ### Watchdog — `internal/watchdog/watchdog.go`

A tick's probe results are abstracted as a `TickInput`: `latency` is the
outcome of `metrics.MeasureLatency` (`none` = error), and `jitterRun` is the
jitter value / packet loss pair taken from the `MeasureJitter` result when
`cfg.JitterSamples > 0` (`MeasureJitter` never returns a non-nil error, so
a run always yields a result); `jitterRun = none` models a session with
jitter sampling disabled, in which case `jitter` and `loss` keep their zero
values (watchdog.go lines 121-131). The jitter value is the integer
`time.Duration` stored by the sampler. `Alert.Timestamp` (wall-clock time)
is not modelled; `Value`/`Threshold` are modelled as rationals. -/

structure WatchdogConfig where
  latencyThreshold : ℤ
  jitterThreshold : ℤ
  lossThreshold : ℚ

structure Alert where
  category : String
  value : ℚ
  threshold : ℚ
deriving DecidableEq

structure Stats where
  samples : ℕ
  latencyMin : ℤ
  latencyMax : ℤ
  latencySum : ℤ
  jitterMin : ℤ
  jitterMax : ℤ
  jitterSum : ℤ
  lossSum : ℚ
  latencyAlerts : ℕ
  jitterAlerts : ℕ
  lossAlerts : ℕ
  gradeCounts : String → ℕ

structure WatcherState where
  stats : Stats
  alerts : List Alert

/-- `NewWatcher` (watchdog.go lines 59-68): zeroed statistics, an empty
grade map (a missing Go map key reads as 0) and an empty alert log. -/
def NewWatcher : WatcherState :=
  { stats :=
      { samples := 0, latencyMin := 0, latencyMax := 0, latencySum := 0
        jitterMin := 0, jitterMax := 0, jitterSum := 0, lossSum := 0
        latencyAlerts := 0, jitterAlerts := 0, lossAlerts := 0
        gradeCounts := fun _ => 0 }
    alerts := [] }

/-- `updateStats` (watchdog.go lines 145-171): increment the sample count
first, then min/max/sum for latency, the same for jitter but only when
`jitter > 0`, then loss and the grade histogram. -/
def updateStats (s : Stats) (latency jitter : ℤ) (loss : ℚ) (grade : String) :
    Stats :=
  let s := { s with samples := s.samples + 1 }
  let s := if s.samples = 1 ∨ latency < s.latencyMin
    then { s with latencyMin := latency } else s
  let s := if s.latencyMax < latency then { s with latencyMax := latency } else s
  let s := { s with latencySum := s.latencySum + latency }
  let s :=
    if 0 < jitter then
      let s := if s.samples = 1 ∨ jitter < s.jitterMin
        then { s with jitterMin := jitter } else s
      let s := if s.jitterMax < jitter then { s with jitterMax := jitter } else s
      { s with jitterSum := s.jitterSum + jitter }
    else s
  let s := { s with lossSum := s.lossSum + loss }
  { s with gradeCounts := fun g =>
      if g = grade then s.gradeCounts g + 1 else s.gradeCounts g }

/-- `checkAlerts` (watchdog.go lines 173-214): for each category, when the
threshold is configured positive and the observed value strictly exceeds it,
an alert is appended to the returned list and that category's counter is
incremented; the three checks run in the order latency, jitter, loss. -/
def checkAlerts (cfg : WatchdogConfig) (latency jitter : ℤ) (loss : ℚ)
    (s : Stats) : List Alert × Stats :=
  let alerts0 : List Alert := []
  let alerts1 := if 0 < cfg.latencyThreshold ∧ cfg.latencyThreshold < latency
    then alerts0 ++ [⟨"latency", (latency : ℚ), (cfg.latencyThreshold : ℚ)⟩]
    else alerts0
  let s1 := if 0 < cfg.latencyThreshold ∧ cfg.latencyThreshold < latency
    then { s with latencyAlerts := s.latencyAlerts + 1 } else s
  let alerts2 := if 0 < cfg.jitterThreshold ∧ cfg.jitterThreshold < jitter
    then alerts1 ++ [⟨"jitter", (jitter : ℚ), (cfg.jitterThreshold : ℚ)⟩]
    else alerts1
  let s2 := if 0 < cfg.jitterThreshold ∧ cfg.jitterThreshold < jitter
    then { s1 with jitterAlerts := s1.jitterAlerts + 1 } else s1
  let alerts3 := if 0 < cfg.lossThreshold ∧ cfg.lossThreshold < loss
    then alerts2 ++ [⟨"loss", loss, cfg.lossThreshold⟩]
    else alerts2
  let s3 := if 0 < cfg.lossThreshold ∧ cfg.lossThreshold < loss
    then { s2 with lossAlerts := s2.lossAlerts + 1 } else s2
  (alerts3, s3)

/-- `addAlert` (watchdog.go lines 216-225): append, then keep only the last
100 entries when the log has grown past 100. -/
def addAlert (alerts : List Alert) (a : Alert) : List Alert :=
  let l := alerts ++ [a]
  if 100 < l.length then l.drop (l.length - 100) else l

structure TickInput where
  latency : Option ℤ
  jitterRun : Option (ℤ × ℚ)
deriving DecidableEq

/-- The jitter value a tick observes (0 when jitter sampling is disabled). -/
def tickJitter (inp : TickInput) : ℤ :=
  match inp.jitterRun with
  | some jr => jr.1
  | none => 0

/-- The packet loss a tick observes (0 when jitter sampling is disabled). -/
def tickLoss (inp : TickInput) : ℚ :=
  match inp.jitterRun with
  | some jr => jr.2
  | none => 0

/-- `tick` (watchdog.go lines 113-143): on a latency-probe error the tick
returns after printing, leaving the state untouched; otherwise it computes
the health score with throughput 0 and bufferbloat `"Unknown"` (line 133),
updates the statistics, then runs the alert checks and appends each raised
alert to the bounded log. -/
def tick (cfg : WatchdogConfig) (inp : TickInput) (w : WatcherState) :
    WatcherState :=
  match inp.latency with
  | none => w
  | some latency =>
    let jitter := tickJitter inp
    let loss := tickLoss inp
    let health := CalculateHealthScore 0 jitter latency "Unknown"
    let stats1 := updateStats w.stats latency jitter loss health.grade
    let res := checkAlerts cfg latency jitter loss stats1
    { stats := res.2, alerts := res.1.foldl addAlert w.alerts }

/-- The watch session's tick loop (watchdog.go lines 90-102): one `tick` per
timer firing, in order. -/
def runTicks (cfg : WatchdogConfig) (inps : List TickInput)
    (w : WatcherState) : WatcherState :=
  inps.foldl (fun w i => tick cfg i w) w

/-- The alerts a single tick raises (the list part of `checkAlerts`, which
does not depend on the statistics argument). -/
def tickAlerts (cfg : WatchdogConfig) (inp : TickInput) : List Alert :=
  match inp.latency with
  | none => []
  | some latency =>
    (checkAlerts cfg latency (tickJitter inp) (tickLoss inp) NewWatcher.stats).1

/-- The full chronological alert log of a session, before the capacity bound
is applied. -/
def fullAlertLog (cfg : WatchdogConfig) : List TickInput → List Alert
  | [] => []
  | i :: is => tickAlerts cfg i ++ fullAlertLog cfg is

/-! ### Statement vocabulary: breach predicates and concrete scenario inputs -/

/-- Modelled from the spec: a tick whose observed latency strictly exceeded
the configured latency threshold (a tick whose latency probe failed observes
nothing). -/
def latencyBreach (cfg : WatchdogConfig) (inp : TickInput) : Bool :=
  match inp.latency with
  | some l => decide (cfg.latencyThreshold < l)
  | none => false

/-- Modelled from the spec: a tick whose observed jitter strictly exceeded
the configured jitter threshold. -/
def jitterBreach (cfg : WatchdogConfig) (inp : TickInput) : Bool :=
  match inp.latency with
  | some _ => decide (cfg.jitterThreshold < tickJitter inp)
  | none => false

/-- Modelled from the spec: a tick whose observed packet loss strictly
exceeded the configured loss threshold. -/
def lossBreach (cfg : WatchdogConfig) (inp : TickInput) : Bool :=
  match inp.latency with
  | some _ => decide (cfg.lossThreshold < tickLoss inp)
  | none => false

/-- The spec's jitter scenario: four probes all succeed, measuring 10ms,
12ms, 11ms, 15ms in temporal order; the context never fires. -/
def c1probe (i : ℕ) : Option ℤ :=
  some ([10000000, 12000000, 11000000, 15000000].getD i 0)

/-- The spec's throughput scenario: 4 standard-mode workers jointly
transferring 10,000,000 bytes. -/
def scen4 : List (Option ℕ) :=
  [some 2500000, some 2500000, some 2500000, some 2500000]

/-- A jitter run in which only the first probe succeeds (measuring 5ms). -/
def probeOne (i : ℕ) : Option ℤ :=
  if i < 1 then some 5000000 else none

/-- The result `runStandard` produces for the `scen4` scenario. -/
def stdScenResult : EngineResult :=
  { downloadSpeed := 80, bytesReceived := 10000000, durationNs := 1000000000
    connections := 4, avgSpeed := 0, peakSpeed := 80, errors := 0 }

/-- A concrete watchdog configuration with all three thresholds set. -/
def wdogCfg : WatchdogConfig :=
  { latencyThreshold := 1, jitterThreshold := 1, lossThreshold := 1 }

/-- A concrete watch session: one tick breaching every threshold, one tick
whose latency probe fails, one breaching none. -/
def wdogInps : List TickInput :=
  [⟨some 5, some (2, 50)⟩, ⟨none, none⟩, ⟨some 0, none⟩]

/-! ### Helper lemmas -/

theorem throughputPoints_le (m : ℚ) : throughputPoints m ≤ 30 := by
  unfold throughputPoints; split_ifs <;> omega

theorem latencyPoints_le (l : ℤ) : latencyPoints l ≤ 25 := by
  unfold latencyPoints; split_ifs <;> omega

theorem jitterPoints_le (j : ℤ) : jitterPoints j ≤ 25 := by
  unfold jitterPoints; split_ifs <;> omega

theorem bufferbloatPoints_le (b : String) : bufferbloatPoints b ≤ 20 := by
  unfold bufferbloatPoints; split_ifs <;> omega

theorem gradeOf_iff (s : ℕ) :
    (gradeOf s = "A" ↔ 90 ≤ s) ∧ (gradeOf s = "B" ↔ 75 ≤ s ∧ s < 90)
    ∧ (gradeOf s = "C" ↔ 60 ≤ s ∧ s < 75) ∧ (gradeOf s = "D" ↔ 40 ≤ s ∧ s < 60)
    ∧ (gradeOf s = "F" ↔ s < 40) := by
  unfold gradeOf
  split_ifs <;> refine ⟨?_, ?_, ?_, ?_, ?_⟩ <;> simp <;> omega

theorem consecSqSum_eq_sumSqAdj (l : List ℤ) : consecSqSum l = sumSqAdj l := by
  induction l with
  | nil => rfl
  | cons a tl ih =>
    cases tl with
    | nil => rfl
    | cons b rest =>
      have h : consecSqSum (a :: b :: rest) = (b - a) ^ 2 + consecSqSum (b :: rest) := rfl
      rw [h, ih]
      simp [sumSqAdj, List.zip_cons_cons]

/-! ### Claim theorems -/

/-- C4: the health score is an additive, order-independent sum of the four
component contributions (with bufferbloat "High"/"Unknown" contributing 0),
the total is always in [0,100], the grade is determined by the boundaries
exactly 90/75/60/40, and throughput 60 Mbps, latency 40ms, jitter 3ms,
bufferbloat Low gives score 90 and grade A. -/
theorem healthScore_additive_bounded_graded (downloadMbps : ℚ)
    (jitter latency : ℤ) (bufferbloat : String) :
    ((CalculateHealthScore downloadMbps jitter latency bufferbloat).score
        = throughputPoints downloadMbps + latencyPoints latency
          + jitterPoints jitter + bufferbloatPoints bufferbloat
      ∧ (CalculateHealthScore downloadMbps jitter latency bufferbloat).score
        = bufferbloatPoints bufferbloat + jitterPoints jitter
          + latencyPoints latency + throughputPoints downloadMbps)
    ∧ (bufferbloatPoints "High" = 0 ∧ bufferbloatPoints "Unknown" = 0)
    ∧ (CalculateHealthScore downloadMbps jitter latency bufferbloat).score ≤ 100
    ∧ ((CalculateHealthScore downloadMbps jitter latency bufferbloat).grade
        = gradeOf (CalculateHealthScore downloadMbps jitter latency bufferbloat).score
      ∧ ∀ s : ℕ, (gradeOf s = "A" ↔ 90 ≤ s) ∧ (gradeOf s = "B" ↔ 75 ≤ s ∧ s < 90)
          ∧ (gradeOf s = "C" ↔ 60 ≤ s ∧ s < 75)
          ∧ (gradeOf s = "D" ↔ 40 ≤ s ∧ s < 60)
          ∧ (gradeOf s = "F" ↔ s < 40))
    ∧ ((CalculateHealthScore 60 3000000 40000000 "Low").score = 90
      ∧ (CalculateHealthScore 60 3000000 40000000 "Low").grade = "A") := by
  refine ⟨⟨rfl, by simp [CalculateHealthScore]; omega⟩, ⟨rfl, rfl⟩, ?_,
    ⟨rfl, gradeOf_iff⟩, by decide, by decide⟩
  have h1 := throughputPoints_le downloadMbps
  have h2 := latencyPoints_le latency
  have h3 := jitterPoints_le jitter
  have h4 := bufferbloatPoints_le bufferbloat
  simp only [CalculateHealthScore]
  omega

/-- C5: bufferbloat severity is a pure, total, deterministic function of
delta = loadedLatency − idleLatency, never set independently of delta, with
the strict boundaries delta ≤ 100ms → Low (100ms exactly is Low),
100ms < delta ≤ 300ms → Medium (300ms exactly is Medium), and
delta > 300ms → High. -/
theorem bufferbloat_severity_of_delta (idleLatency underLoadLatency : ℤ) :
    ((MeasureBufferbloat idleLatency underLoadLatency).bloatDelta
        = underLoadLatency - idleLatency
      ∧ (MeasureBufferbloat idleLatency underLoadLatency).severity
        = severityOfDelta (MeasureBufferbloat idleLatency underLoadLatency).bloatDelta)
    ∧ (∀ delta : ℤ, severityOfDelta delta = severitySpec delta)
    ∧ severityOfDelta 100000000 = "Low" ∧ severityOfDelta 300000000 = "Medium" := by
  refine ⟨⟨rfl, rfl⟩, ?_, by decide, by decide⟩
  intro delta
  unfold severityOfDelta severitySpec
  split_ifs <;> first | rfl | omega

/-- C1 counterexample: on the spec's own scenario — samples 10ms, 12ms,
11ms, 15ms in temporal order, all four probes succeeding — the code does
not return the temporal-order RMS sqrt((4+1+16)/3) ≈ 2.6458ms: it sorts the
samples first (jitter.go line 56) and returns sqrt(11/3) ≈ 1.915ms. Values
in nanoseconds, so the claimed value is sqrt((4+1+16)·10¹²/3). -/
theorem jitter_scenario_not_temporal_rms :
    Real.sqrt (((MeasureJitter 4 4 c1probe).jitterSq : ℝ))
      ≠ Real.sqrt ((4 + 1 + 16) * 10 ^ 12 / 3 : ℝ) := by
  have hval : (MeasureJitter 4 4 c1probe).jitterSq = 11000000000000 / 3 := by
    rfl
  rw [hval]
  have hlt : ((11000000000000 / 3 : ℚ) : ℝ) < (4 + 1 + 16) * 10 ^ 12 / 3 := by
    push_cast
    norm_num
  exact ne_of_lt (Real.sqrt_lt_sqrt (by positivity) hlt)

/-- C1 amended: for every jitter sampling run with N ≥ 2 successful samples,
the returned jitter equals the root-mean-square of the differences between
adjacent successful samples taken in ascending *sorted* order (the code
sorts before differencing), using N−1 difference terms; the scenario
[10ms, 12ms, 11ms, 15ms] therefore yields sqrt(11/3) ≈ 1.915ms, not
sqrt(7) ≈ 2.6458ms. -/
theorem jitter_rms_of_sorted (samples doneFrom : ℕ) (probe : ℕ → Option ℤ)
    (h : 2 ≤ (jitterLoop samples doneFrom probe).2.length) :
    Real.sqrt (((MeasureJitter samples doneFrom probe).jitterSq : ℝ))
      = Real.sqrt
          ((sumSqAdj (sortLatencies (jitterLoop samples doneFrom probe).2) : ℝ)
            / (((jitterLoop samples doneFrom probe).2.length - 1 : ℕ) : ℝ)) := by
  have hn : ¬ (jitterLoop samples doneFrom probe).2.length < 2 := by omega
  simp only [MeasureJitter, hn, if_false, ← consecSqSum_eq_sumSqAdj]
  push_cast
  ring_nf

theorem jitter_rms_of_sorted_witness :
    2 ≤ (jitterLoop 4 4 c1probe).2.length
    ∧ Real.sqrt (((MeasureJitter 4 4 c1probe).jitterSq : ℝ))
      = Real.sqrt
          ((sumSqAdj (sortLatencies (jitterLoop 4 4 c1probe).2) : ℝ)
            / (((jitterLoop 4 4 c1probe).2.length - 1 : ℕ) : ℝ)) :=
  ⟨by decide, jitter_rms_of_sorted 4 4 c1probe (by decide)⟩

/-- C6: for every jitter sampling run with attempted > 0 probes, the
reported packet loss equals (attempted − succeeded) / attempted × 100
exactly, and whenever fewer than 2 probes succeed the returned jitter value
is 0 (while the loss, per the first conjunct, is still reported). -/
theorem jitter_loss_exact (samples doneFrom : ℕ) (probe : ℕ → Option ℤ)
    (h : 0 < samples) :
    (MeasureJitter samples doneFrom probe).packetLoss
      = ((samples - (jitterLoop samples doneFrom probe).2.length : ℕ) : ℚ)
          / (samples : ℚ) * 100
    ∧ ((jitterLoop samples doneFrom probe).2.length < 2 →
        Real.sqrt (((MeasureJitter samples doneFrom probe).jitterSq : ℝ)) = 0) := by
  constructor
  · simp only [MeasureJitter]
    split_ifs <;> rfl
  · intro h2
    simp only [MeasureJitter, if_pos h2]
    simp

theorem jitter_loss_exact_witness :
    0 < 10
    ∧ ((MeasureJitter 10 10 probeOne).packetLoss
        = ((10 - (jitterLoop 10 10 probeOne).2.length : ℕ) : ℚ) / (10 : ℚ) * 100
      ∧ ((jitterLoop 10 10 probeOne).2.length < 2 →
          Real.sqrt (((MeasureJitter 10 10 probeOne).jitterSq : ℝ)) = 0)) :=
  ⟨by decide, jitter_loss_exact 10 10 probeOne (by decide)⟩

theorem jitterLoopAux_attempts (doneFrom : ℕ) (probe : ℕ → Option ℤ) :
    ∀ rem i, (jitterLoopAux doneFrom probe i rem).1 = rem := by
  intro rem
  induction rem with
  | zero => intro i; rfl
  | succ n ih =>
    intro i
    simp only [jitterLoopAux]
    simp [ih]

/-- C3 (observed code behavior): the `case <-ctx.Done(): break` inside the
inter-sample `select` (jitter.go lines 40-44) terminates only the `select`
statement, never the `for` loop, so every one of the `samples` iterations
attempts a probe no matter when the context fires; in particular with
samples = 4 and the context cancelled from iteration 2 on, all 4 probes are
attempted and the two post-cancellation probes merely fail, leaving the
first two latencies. -/
theorem jitter_probes_attempted_after_cancel :
    (∀ (samples doneFrom : ℕ) (probe : ℕ → Option ℤ),
        (jitterLoop samples doneFrom probe).1 = samples)
    ∧ (jitterLoop 4 2 c1probe).1 = 4
    ∧ (jitterLoop 4 2 c1probe).2 = [10000000, 12000000] := by
  exact ⟨fun samples doneFrom probe => jitterLoopAux_attempts doneFrom probe samples 0,
    by decide, by decide⟩

/-- C2 counterexample: multi-target mode has no zero-byte check — with one
target whose single worker fails, `RunP2P` returns a result carrying
bytesTotal 0 instead of failing with NoDataError. -/
theorem runP2P_ok_with_zero_bytes :
    RunP2P ["http://peer"] [none] 1000000000
      = .ok { downloadSpeed := 0, bytesReceived := 0, durationNs := 1000000000
              connections := 1, avgSpeed := 0, peakSpeed := 0, errors := 1 } := by
  simp [RunP2P, EngineResult.mk.injEq]
  norm_num [mbpsOf, bytesOf, errorsOf]

/-- C2 amended: in standard and stress modes, a run whose accumulated
bytesTotal is 0 fails with NoDataError and no result is produced
(bytesTotal 0 is never returned as a valid result there); multi-target mode
performs no such check and returns its result even when bytesTotal is 0. -/
theorem throughput_zero_bytes_noData (outcomes : List (Option ℕ))
    (requested durNs : ℕ) (h : bytesOf outcomes = 0) :
    runStandard outcomes durNs = .error .noData
    ∧ runStress requested outcomes durNs = .error .noData := by
  constructor
  · simp [runStandard, h]
  · simp [runStress, h]

theorem throughput_zero_bytes_noData_witness :
    bytesOf [none] = 0
    ∧ runStandard [none] 1000000000 = .error .noData
    ∧ runStress 3 [none] 1000000000 = .error .noData :=
  ⟨by decide, (throughput_zero_bytes_noData [none] 3 1000000000 (by decide)).1,
    (throughput_zero_bytes_noData [none] 3 1000000000 (by decide)).2⟩

/-- C7: for every completed throughput run — in any of the three modes:
standard (`runStandard`), stress (`runStress`) or multi-target (`RunP2P`) —
speedMbps = bytesTotal × 8 / 1,000,000 / durationSeconds, where the
duration is the one the result reports (for multi-target, the elapsed time
after its one-nanosecond floor; for the other modes, the run's wall-clock
duration); the speed is monotonically increasing in bytesTotal for a fixed
duration; the result carries the jointly accumulated bytes, and a
standard-mode run reports one connection per worker (the 4-worker,
10,000,000-byte, 1.0s scenario is evaluated in the witness: 80 Mbps,
10,000,000 bytes, 4 connections). -/
theorem throughput_speed_formula (outcomes : List (Option ℕ))
    (targets : List String) (requested durNs : ℕ) (r : EngineResult)
    (h : runStandard outcomes durNs = .ok r
      ∨ runStress requested outcomes durNs = .ok r
      ∨ RunP2P targets outcomes durNs = .ok r) :
    r.downloadSpeed
      = ((r.bytesReceived * 8 : ℕ) : ℚ) / 1000000
        / ((r.durationNs : ℚ) / 1000000000)
    ∧ r.bytesReceived = bytesOf outcomes
    ∧ (runStandard outcomes durNs = .ok r → r.connections = outcomes.length)
    ∧ ∀ b₁ b₂ d : ℕ, 0 < d → b₁ ≤ b₂ → mbpsOf b₁ d ≤ mbpsOf b₂ d := by
  have key : r.downloadSpeed
      = ((r.bytesReceived * 8 : ℕ) : ℚ) / 1000000
        / ((r.durationNs : ℚ) / 1000000000)
      ∧ r.bytesReceived = bytesOf outcomes := by
    rcases h with h | h | h
    · simp only [runStandard] at h
      by_cases h0 : bytesOf outcomes = 0
      · rw [if_pos h0] at h
        exact Except.noConfusion h
      · rw [if_neg h0] at h
        injection h with h
        subst h
        exact ⟨rfl, rfl⟩
    · simp only [runStress] at h
      by_cases h0 : bytesOf outcomes = 0
      · rw [if_pos h0] at h
        exact Except.noConfusion h
      · rw [if_neg h0] at h
        injection h with h
        subst h
        exact ⟨rfl, rfl⟩
    · simp only [RunP2P] at h
      by_cases h0 : targets.length = 0
      · rw [if_pos h0] at h
        exact Except.noConfusion h
      · rw [if_neg h0] at h
        injection h with h
        subst h
        exact ⟨rfl, rfl⟩
  refine ⟨key.1, key.2, ?_, ?_⟩
  · intro hs
    simp only [runStandard] at hs
    by_cases h0 : bytesOf outcomes = 0
    · rw [if_pos h0] at hs
      exact Except.noConfusion hs
    · rw [if_neg h0] at hs
      injection hs with hs
      subst hs
      rfl
  · intro b₁ b₂ d hd hb
    unfold mbpsOf
    have h8 : ((b₁ * 8 : ℕ) : ℚ) ≤ ((b₂ * 8 : ℕ) : ℚ) := by
      exact_mod_cast Nat.mul_le_mul_right 8 hb
    gcongr

theorem throughput_speed_formula_witness :
    runStandard scen4 1000000000 = .ok stdScenResult
    ∧ stdScenResult.downloadSpeed
      = ((stdScenResult.bytesReceived * 8 : ℕ) : ℚ) / 1000000
        / ((stdScenResult.durationNs : ℚ) / 1000000000)
    ∧ stdScenResult.bytesReceived = bytesOf scen4
    ∧ stdScenResult.connections = scen4.length
    ∧ stdScenResult.downloadSpeed = 80
    ∧ stdScenResult.bytesReceived = 10000000
    ∧ stdScenResult.connections = 4 := by
  have h : runStandard scen4 1000000000 = .ok stdScenResult := by
    simp [runStandard, stdScenResult, EngineResult.mk.injEq, scen4, bytesOf, errorsOf]
    norm_num [mbpsOf]
  have h2 := throughput_speed_formula scen4 [] 0 1000000000 stdScenResult (Or.inl h)
  exact ⟨h, h2.1, h2.2.1, h2.2.2.1 h, rfl, rfl, rfl⟩

/-! ### Watchdog helper lemmas -/

theorem checkAlerts_counters (cfg : WatchdogConfig) (latency jitter : ℤ)
    (loss : ℚ) (s : Stats) :
    (checkAlerts cfg latency jitter loss s).2.latencyAlerts
      = s.latencyAlerts
        + (if 0 < cfg.latencyThreshold ∧ cfg.latencyThreshold < latency then 1 else 0)
    ∧ (checkAlerts cfg latency jitter loss s).2.jitterAlerts
      = s.jitterAlerts
        + (if 0 < cfg.jitterThreshold ∧ cfg.jitterThreshold < jitter then 1 else 0)
    ∧ (checkAlerts cfg latency jitter loss s).2.lossAlerts
      = s.lossAlerts
        + (if 0 < cfg.lossThreshold ∧ cfg.lossThreshold < loss then 1 else 0)
    ∧ (checkAlerts cfg latency jitter loss s).2.gradeCounts = s.gradeCounts := by
  unfold checkAlerts
  split_ifs <;> simp

theorem updateStats_counters (s : Stats) (latency jitter : ℤ) (loss : ℚ)
    (grade : String) :
    (updateStats s latency jitter loss grade).latencyAlerts = s.latencyAlerts
    ∧ (updateStats s latency jitter loss grade).jitterAlerts = s.jitterAlerts
    ∧ (updateStats s latency jitter loss grade).lossAlerts = s.lossAlerts := by
  simp only [updateStats]
  split_ifs <;> exact ⟨rfl, rfl, rfl⟩

theorem updateStats_gradeCounts (s : Stats) (latency jitter : ℤ) (loss : ℚ)
    (grade g : String) :
    (updateStats s latency jitter loss grade).gradeCounts g
      = if g = grade then s.gradeCounts g + 1 else s.gradeCounts g := by
  simp only [updateStats]
  split_ifs <;> rfl

theorem tick_alertCounters (cfg : WatchdogConfig) (inp : TickInput)
    (w : WatcherState) :
    (tick cfg inp w).stats.latencyAlerts
      = w.stats.latencyAlerts
        + (if decide (0 < cfg.latencyThreshold) && latencyBreach cfg inp then 1 else 0)
    ∧ (tick cfg inp w).stats.jitterAlerts
      = w.stats.jitterAlerts
        + (if decide (0 < cfg.jitterThreshold) && jitterBreach cfg inp then 1 else 0)
    ∧ (tick cfg inp w).stats.lossAlerts
      = w.stats.lossAlerts
        + (if decide (0 < cfg.lossThreshold) && lossBreach cfg inp then 1 else 0) := by
  obtain ⟨lat, jr⟩ := inp
  cases lat with
  | none => simp [tick, latencyBreach, jitterBreach, lossBreach]
  | some l =>
    refine ⟨?_, ?_, ?_⟩
    · simp only [tick]
      rw [(checkAlerts_counters cfg l (tickJitter ⟨some l, jr⟩)
            (tickLoss ⟨some l, jr⟩) _).1,
        (updateStats_counters w.stats l (tickJitter ⟨some l, jr⟩)
            (tickLoss ⟨some l, jr⟩) _).1]
      simp [latencyBreach]
    · simp only [tick]
      rw [(checkAlerts_counters cfg l (tickJitter ⟨some l, jr⟩)
            (tickLoss ⟨some l, jr⟩) _).2.1,
        (updateStats_counters w.stats l (tickJitter ⟨some l, jr⟩)
            (tickLoss ⟨some l, jr⟩) _).2.1]
      simp [jitterBreach]
    · simp only [tick]
      rw [(checkAlerts_counters cfg l (tickJitter ⟨some l, jr⟩)
            (tickLoss ⟨some l, jr⟩) _).2.2.1,
        (updateStats_counters w.stats l (tickJitter ⟨some l, jr⟩)
            (tickLoss ⟨some l, jr⟩) _).2.2]
      simp [lossBreach]

theorem runTicks_alertCounters (cfg : WatchdogConfig) :
    ∀ (inps : List TickInput) (w : WatcherState),
      (runTicks cfg inps w).stats.latencyAlerts
        = w.stats.latencyAlerts
          + inps.countP (fun i => decide (0 < cfg.latencyThreshold) && latencyBreach cfg i)
      ∧ (runTicks cfg inps w).stats.jitterAlerts
        = w.stats.jitterAlerts
          + inps.countP (fun i => decide (0 < cfg.jitterThreshold) && jitterBreach cfg i)
      ∧ (runTicks cfg inps w).stats.lossAlerts
        = w.stats.lossAlerts
          + inps.countP (fun i => decide (0 < cfg.lossThreshold) && lossBreach cfg i) := by
  intro inps
  induction inps with
  | nil => intro w; simp [runTicks]
  | cons i is ih =>
    intro w
    simp only [runTicks, List.foldl_cons] at *
    obtain ⟨h1, h2, h3⟩ := ih (tick cfg i w)
    obtain ⟨t1, t2, t3⟩ := tick_alertCounters cfg i w
    refine ⟨?_, ?_, ?_⟩ <;> simp only [List.countP_cons]
    · rw [h1, t1]; omega
    · rw [h2, t2]; omega
    · rw [h3, t3]; omega

theorem tick_alerts_foldl (cfg : WatchdogConfig) (inp : TickInput)
    (w : WatcherState) :
    (tick cfg inp w).alerts = (tickAlerts cfg inp).foldl addAlert w.alerts := by
  obtain ⟨lat, jr⟩ := inp
  cases lat with
  | none => rfl
  | some l => rfl

theorem runTicks_alerts (cfg : WatchdogConfig) :
    ∀ (inps : List TickInput) (w : WatcherState),
      (runTicks cfg inps w).alerts
        = (fullAlertLog cfg inps).foldl addAlert w.alerts := by
  intro inps
  induction inps with
  | nil => intro w; rfl
  | cons i is ih =>
    intro w
    simp only [runTicks, List.foldl_cons] at *
    rw [ih (tick cfg i w), tick_alerts_foldl]
    simp only [fullAlertLog]
    rw [List.foldl_append]

theorem addAlert_eq_drop (l : List Alert) (a : Alert) (h : l.length ≤ 100) :
    addAlert l a = (l ++ [a]).drop (l.length + 1 - 100) := by
  unfold addAlert
  simp only [List.length_append, List.length_cons, List.length_nil]
  split_ifs with h1
  · rfl
  · have h0 : l.length + 1 - 100 = 0 := by omega
    rw [h0, List.drop_zero]

theorem foldl_addAlert_drop :
    ∀ (as l : List Alert), l.length ≤ 100 →
      List.foldl addAlert l as = (l ++ as).drop (l.length + as.length - 100) := by
  intro as
  induction as with
  | nil =>
    intro l h
    simp only [List.foldl_nil, List.append_nil, List.length_nil, Nat.add_zero]
    rw [Nat.sub_eq_zero_of_le h, List.drop_zero]
  | cons a as ih =>
    intro l h
    simp only [List.foldl_cons]
    have hd : l.length + 1 - 100 ≤ (l ++ [a]).length := by
      simp only [List.length_append, List.length_cons, List.length_nil]
      omega
    have hlen : (addAlert l a).length ≤ 100 := by
      rw [addAlert_eq_drop l a h]
      simp only [List.length_drop, List.length_append, List.length_cons,
        List.length_nil]
      omega
    rw [ih (addAlert l a) hlen, addAlert_eq_drop l a h,
      ← List.drop_append_of_le_length hd, List.drop_drop]
    have hx : (l ++ [a]) ++ as = l ++ a :: as := by simp
    rw [hx]
    congr 1
    simp only [List.length_drop, List.length_append, List.length_cons,
      List.length_nil]
    omega

theorem runTicks_alerts_bound (cfg : WatchdogConfig) (inps : List TickInput) :
    (runTicks cfg inps NewWatcher).alerts
      = (fullAlertLog cfg inps).drop ((fullAlertLog cfg inps).length - 100)
    ∧ (runTicks cfg inps NewWatcher).alerts.length ≤ 100 := by
  have h := runTicks_alerts cfg inps NewWatcher
  have h2 : NewWatcher.alerts = ([] : List Alert) := rfl
  rw [h2] at h
  rw [foldl_addAlert_drop (fullAlertLog cfg inps) [] (by simp)] at h
  simp only [List.nil_append, List.length_nil, Nat.zero_add] at h
  refine ⟨h, ?_⟩
  rw [h]
  simp only [List.length_drop]
  omega

theorem unknown_score_le_50 (jitter latency : ℤ) :
    (CalculateHealthScore 0 jitter latency "Unknown").score ≤ 50 := by
  have h2 := latencyPoints_le latency
  have h3 := jitterPoints_le jitter
  have h1 : throughputPoints 0 = 0 := by norm_num [throughputPoints]
  have h4 : bufferbloatPoints "Unknown" = 0 := by rfl
  simp only [CalculateHealthScore]
  omega

theorem unknown_grade_DF (jitter latency : ℤ) :
    (CalculateHealthScore 0 jitter latency "Unknown").grade = "D"
    ∨ (CalculateHealthScore 0 jitter latency "Unknown").grade = "F" := by
  have h := unknown_score_le_50 jitter latency
  have hg : (CalculateHealthScore 0 jitter latency "Unknown").grade
      = gradeOf (CalculateHealthScore 0 jitter latency "Unknown").score := rfl
  rw [hg]
  unfold gradeOf
  split_ifs <;> first | omega | simp

theorem tick_gradeCounts_other (cfg : WatchdogConfig) (inp : TickInput)
    (w : WatcherState) (g : String) (hD : g ≠ "D") (hF : g ≠ "F") :
    (tick cfg inp w).stats.gradeCounts g = w.stats.gradeCounts g := by
  obtain ⟨lat, jr⟩ := inp
  cases lat with
  | none => rfl
  | some l =>
    simp only [tick]
    rw [congrFun (checkAlerts_counters cfg l (tickJitter ⟨some l, jr⟩)
          (tickLoss ⟨some l, jr⟩) _).2.2.2 g,
      updateStats_gradeCounts]
    rcases unknown_grade_DF (tickJitter ⟨some l, jr⟩) l with h | h <;>
      rw [h] <;> simp [hD, hF]

theorem runTicks_gradeCounts_other (cfg : WatchdogConfig) (g : String)
    (hD : g ≠ "D") (hF : g ≠ "F") :
    ∀ (inps : List TickInput) (w : WatcherState),
      (runTicks cfg inps w).stats.gradeCounts g = w.stats.gradeCounts g := by
  intro inps
  induction inps with
  | nil => intro w; rfl
  | cons i is ih =>
    intro w
    simp only [runTicks, List.foldl_cons] at *
    rw [ih (tick cfg i w), tick_gradeCounts_other cfg i w g hD hF]

/-- C8: for every watchdog session configured with positive thresholds and
each alert category (latency, jitter, loss), the per-category alert counter
equals the number of ticks whose observed value strictly exceeded that
category's threshold; the alert log never holds more than 100 entries and,
past the bound, keeps exactly the most recent 100 of the chronological log
(evicting the oldest first). -/
theorem watchdog_alert_counts (cfg : WatchdogConfig) (inps : List TickInput)
    (hl : 0 < cfg.latencyThreshold) (hj : 0 < cfg.jitterThreshold)
    (hlo : 0 < cfg.lossThreshold) :
    (runTicks cfg inps NewWatcher).stats.latencyAlerts
      = inps.countP (latencyBreach cfg)
    ∧ (runTicks cfg inps NewWatcher).stats.jitterAlerts
      = inps.countP (jitterBreach cfg)
    ∧ (runTicks cfg inps NewWatcher).stats.lossAlerts
      = inps.countP (lossBreach cfg)
    ∧ (runTicks cfg inps NewWatcher).alerts.length ≤ 100
    ∧ (runTicks cfg inps NewWatcher).alerts
      = (fullAlertLog cfg inps).drop ((fullAlertLog cfg inps).length - 100) := by
  obtain ⟨h1, h2, h3⟩ := runTicks_alertCounters cfg inps NewWatcher
  have hb := runTicks_alerts_bound cfg inps
  have e1 : (fun i => decide (0 < cfg.latencyThreshold) && latencyBreach cfg i)
      = latencyBreach cfg := by
    funext i; simp [hl]
  have e2 : (fun i => decide (0 < cfg.jitterThreshold) && jitterBreach cfg i)
      = jitterBreach cfg := by
    funext i; simp [hj]
  have e3 : (fun i => decide (0 < cfg.lossThreshold) && lossBreach cfg i)
      = lossBreach cfg := by
    funext i; simp [hlo]
  rw [e1] at h1
  rw [e2] at h2
  rw [e3] at h3
  exact ⟨by rw [h1]; simp [NewWatcher], by rw [h2]; simp [NewWatcher],
    by rw [h3]; simp [NewWatcher], hb.2, hb.1⟩

theorem watchdog_alert_counts_witness :
    (0 : ℤ) < wdogCfg.latencyThreshold
    ∧ (0 : ℤ) < wdogCfg.jitterThreshold
    ∧ (0 : ℚ) < wdogCfg.lossThreshold
    ∧ ((runTicks wdogCfg wdogInps NewWatcher).stats.latencyAlerts
        = wdogInps.countP (latencyBreach wdogCfg)
      ∧ (runTicks wdogCfg wdogInps NewWatcher).stats.jitterAlerts
        = wdogInps.countP (jitterBreach wdogCfg)
      ∧ (runTicks wdogCfg wdogInps NewWatcher).stats.lossAlerts
        = wdogInps.countP (lossBreach wdogCfg)
      ∧ (runTicks wdogCfg wdogInps NewWatcher).alerts.length ≤ 100
      ∧ (runTicks wdogCfg wdogInps NewWatcher).alerts
        = (fullAlertLog wdogCfg wdogInps).drop
            ((fullAlertLog wdogCfg wdogInps).length - 100)) :=
  ⟨by decide, by decide, by norm_num [wdogCfg],
    watchdog_alert_counts wdogCfg wdogInps (by decide) (by decide)
      (by norm_num [wdogCfg])⟩

/-- C9: a watchdog tick whose latency probe fails is non-fatal to the watch
session: the whole watcher state — statistics (sample count, min/max/sum
aggregates, grade counts, alert counters) and the alert log — is left
completely unchanged, and the session continues with the remaining ticks as
if the failed tick had not happened. -/
theorem watchdog_tick_probe_failure_nonfatal (cfg : WatchdogConfig)
    (jr : Option (ℤ × ℚ)) (w : WatcherState) (rest : List TickInput) :
    tick cfg ⟨none, jr⟩ w = w
    ∧ runTicks cfg (⟨none, jr⟩ :: rest) w = runTicks cfg rest w :=
  ⟨rfl, rfl⟩

/-- C10: every successful watchdog tick computes its health score with
throughput 0 and bufferbloat "Unknown", so the per-tick score is at most 50
and the grade is always D or F; consequently the grade histogram counts for
A, B and C stay 0 for the entire watch session. -/
theorem watchdog_grades_capped (cfg : WatchdogConfig) (inps : List TickInput)
    (jitter latency : ℤ) :
    (CalculateHealthScore 0 jitter latency "Unknown").score ≤ 50
    ∧ ((CalculateHealthScore 0 jitter latency "Unknown").grade = "D"
      ∨ (CalculateHealthScore 0 jitter latency "Unknown").grade = "F")
    ∧ (runTicks cfg inps NewWatcher).stats.gradeCounts "A" = 0
    ∧ (runTicks cfg inps NewWatcher).stats.gradeCounts "B" = 0
    ∧ (runTicks cfg inps NewWatcher).stats.gradeCounts "C" = 0 := by
  refine ⟨unknown_score_le_50 jitter latency, unknown_grade_DF jitter latency,
    ?_, ?_, ?_⟩ <;>
    rw [runTicks_gradeCounts_other cfg _ (by decide) (by decide) inps NewWatcher] <;>
    rfl

end PulseGo
